import Mathlib

/-!
Verification of the mem0 MCP proxy subsystem (`mem0-mcp-clean`).

The development shallowly embeds the four Python modules that the claims
touch:

* `network_mcp_proxy.py` — the network adapter (`handle_call_tool`,
  `call_remote_tool`, `get_user_session`, `handle_mcp_request`);
* `remote_mcp_proxy.py` — the stdio-to-HTTP bridge (`establish_session`);
* `main_fixed.py` — the SSE server (`get_user_id_from_headers`,
  identity resolution inside `handle_sse`);
* `main_stdio.py` — the stdio tool host (`set_user_id_context`,
  `handle_call_tool`).

JSON values are modelled by `Mem0.Value`, Python dicts by association
lists with first-match lookup, network effects by explicit environment
parameters (the handshake outcome, the POST outcome, the uuid supply),
and asyncio interleaving of `get_user_session` by a small-step scheduler
whose atomic steps are the code segments between `await` points.
-/

namespace Mem0

/-- A JSON-like value, as carried in tool-call argument maps. -/
inductive Value where
  | str (s : String)
  | num (n : Int)
  | bool (b : Bool)
  | null
  deriving DecidableEq, Repr

/-- Python truthiness of a `Value` (`if not user_id:` style tests). -/
def Value.truthy : Value → Bool
  | .str s => s ≠ ""
  | .num n => n ≠ 0
  | .bool b => b
  | .null => false

/-- A Python dict with string keys, as an association list whose keys are
unique in practice; lookup returns the first binding. -/
def Args : Type := List (String × Value)

instance : DecidableEq Args := by unfold Args; infer_instance

instance : Repr Args := by unfold Args; infer_instance

/-- `d.get(k)` — first binding for `k`, if any. -/
def Args.get (a : Args) (k : String) : Option Value :=
  (List.find? (fun p => p.fst = k) a).map Prod.snd

/-- `d[k] = v` — replace the first binding for `k` in place, or append. -/
def Args.set (a : Args) (k : String) (v : Value) : Args :=
  match a with
  | [] => [(k, v)]
  | (k₁, v₁) :: rest =>
      if k₁ = k then (k₁, v) :: rest else (k₁, v₁) :: Args.set rest k v

@[simp] theorem Args.get_nil (k : String) : Args.get [] k = none := rfl

theorem Args.get_cons (p : String × Value) (rest : Args) (k : String) :
    Args.get (p :: rest) k =
      if p.fst = k then some p.snd else Args.get rest k := by
  by_cases h : p.fst = k <;> simp [Args.get, List.find?, h]

theorem Args.set_cons (k₁ : String) (v₁ : Value) (rest : Args)
    (k : String) (v : Value) :
    Args.set ((k₁, v₁) :: rest) k v =
      if k₁ = k then (k₁, v) :: rest else (k₁, v₁) :: Args.set rest k v :=
  rfl

/-- Looking up the key just written returns the written value. -/
theorem Args.get_set_self (a : Args) (k : String) (v : Value) :
    Args.get (Args.set a k v) k = some v := by
  induction a with
  | nil => simp [Args.set, Args.get_cons]
  | cons p rest ih =>
      obtain ⟨k₁, v₁⟩ := p
      rw [Args.set_cons]
      by_cases h : k₁ = k
      · rw [if_pos h, Args.get_cons]
        simp [h]
      · rw [if_neg h, Args.get_cons]
        simpa [h] using ih

/-- Writing one key leaves every other key's lookup unchanged. -/
theorem Args.get_set_ne (a : Args) (k k₂ : String) (v : Value) (h : k₂ ≠ k) :
    Args.get (Args.set a k v) k₂ = Args.get a k₂ := by
  induction a with
  | nil =>
      simp only [Args.set, Args.get_nil, Args.get_cons]
      exact if_neg (fun hh => h hh.symm)
  | cons p rest ih =>
      obtain ⟨k₁, v₁⟩ := p
      rw [Args.set_cons]
      by_cases hk : k₁ = k
      · subst hk
        rw [if_pos rfl, Args.get_cons, Args.get_cons]
        have hne : ¬ (k₁ = k₂) := fun hh => h hh.symm
        rw [if_neg hne, if_neg hne]
      · rw [if_neg hk, Args.get_cons, Args.get_cons]
        by_cases hk₂ : k₁ = k₂
        · simp [hk₂]
        · simpa [hk₂] using ih

/-- The keys of `Args.set a k v` are the keys of `a` plus `k`. -/
theorem Args.keys_set (a : Args) (k : String) (v : Value) :
    (Args.set a k v).map Prod.fst = a.map Prod.fst ∨
    (Args.set a k v).map Prod.fst = a.map Prod.fst ++ [k] := by
  induction a with
  | nil => right; simp [Args.set]
  | cons p rest ih =>
      obtain ⟨k₁, v₁⟩ := p
      by_cases hk : k₁ = k
      · left; simp [Args.set, hk]
      · rcases ih with h | h
        · left; simp [Args.set, hk, h]
        · right; simp [Args.set, hk, h]

/-! ### String primitives.

The Python string operations the embedded code uses (`str.lower`,
`str.strip`, `str.split`, `str.startswith`) are written here over the
character list of the string, so that they evaluate definitionally on
concrete inputs (the core library versions are positional and do not
kernel-reduce). -/

/-- Python `str.lower` on ASCII names. -/
def lowerStr (s : String) : String := ⟨s.data.map Char.toLower⟩

/-- Python `str.strip`: drop whitespace from both ends. -/
def pyStrip (s : String) : String :=
  ⟨((s.data.dropWhile Char.isWhitespace).reverse.dropWhile
      Char.isWhitespace).reverse⟩

/-- Python `str.split(sep)` for a non-empty separator, over character
lists: cut at each leftmost occurrence of `sep`. The fuel argument only
serves structural termination; it starts at `length + 1`, which is never
exhausted. -/
def pySplitAux (sep : List Char) :
    Nat → List Char → List Char → List (List Char)
  | _, [], acc => [acc.reverse]
  | 0, l, acc => [acc.reverse ++ l]
  | fuel + 1, x :: xs, acc =>
      if List.isPrefixOf sep (x :: xs) then
        acc.reverse :: pySplitAux sep fuel (List.drop sep.length (x :: xs)) []
      else pySplitAux sep fuel xs (x :: acc)

/-- Python `s.split(sep)` (non-empty `sep`). -/
def pySplit (s : String) (sep : String) : List String :=
  (pySplitAux sep.data (s.data.length + 1) s.data []).map
    (fun l => String.mk l)

/-- Python `s.startswith(pre)`. -/
def pyStartsWith (s : String) (pre : String) : Bool :=
  List.isPrefixOf pre.data s.data

/-! ### Network adapter: `handle_call_tool` argument handling
(`network_mcp_proxy.py`, lines 214–233). -/

/-- Case-insensitive HTTP header lookup, first match
(`request.headers.get("X-User-ID", default)`). -/
def headerGet (headers : List (String × String)) (name : String) :
    Option String :=
  (List.find? (fun p => lowerStr p.fst = lowerStr name) headers).map
    Prod.snd

/-- The identity resolved by the network adapter's `handle_call_tool`:
`user_id = arguments.get("user_id"); if not user_id: user_id =
request.headers.get("X-User-ID", "admin_default")`. -/
def resolvedUserId (arguments : Args) (headers : List (String × String)) :
    Value :=
  let fromArgs := Args.get arguments "user_id"
  let fromHeader : Value :=
    .str ((headerGet headers "X-User-ID").getD "admin_default")
  match fromArgs with
  | some v => if v.truthy then v else fromHeader
  | none => fromHeader

/-- The arguments map that the network adapter forwards to
`call_remote_tool`: `arguments["user_id"] = user_id`. -/
def forwardedArgs (arguments : Args) (headers : List (String × String)) :
    Args :=
  Args.set arguments "user_id" (resolvedUserId arguments headers)

/-! ### Session negotiation
(`network_mcp_proxy.py` lines 26–58, `remote_mcp_proxy.py` lines 117–141). -/

/-- The per-user session record stored by `NetworkMCPProxy.sessions`:
`{'session_id': ..., 'established': ...}`. -/
structure Session where
  session_id : String
  established : Bool
  deriving DecidableEq, Repr

/-- The `self.sessions` dict, keyed by the user id value. -/
def SessionTable : Type := List (Value × Session)

instance : DecidableEq SessionTable := by unfold SessionTable; infer_instance

instance : Repr SessionTable := by unfold SessionTable; infer_instance

def SessionTable.get (t : SessionTable) (uid : Value) : Option Session :=
  (List.find? (fun p => p.fst = uid) t).map Prod.snd

def SessionTable.set (t : SessionTable) (uid : Value) (s : Session) :
    SessionTable :=
  match t with
  | [] => [(uid, s)]
  | (u₁, s₁) :: rest =>
      if u₁ = uid then (u₁, s) :: rest
      else (u₁, s₁) :: SessionTable.set rest uid s

/-- Outcome of the `GET <base_url>/sse` handshake: either an HTTP response
(status code and body text) or a raised exception. -/
inductive HandshakeResult where
  | response (status : Nat) (text : String)
  | exn (msg : String)
  deriving DecidableEq, Repr

/-- Token scraping from the SSE body: split on newlines, take the first
line starting with `data: /messages/?session_id=`, and return what follows
the `session_id=` separator (`line.split('session_id=')[1]`). -/
def extractSessionId (text : String) : Option String :=
  let lines := pySplit text "\n"
  (List.find?
      (fun l => pyStartsWith l "data: /messages/?session_id=") lines).map
    (fun l => (pySplit l "session_id=").getD 1 "")

/-- The session built by `get_user_session` for a cache miss, given the
handshake outcome. On a response, the token is extracted only when the
status is 200; a falsy (absent or empty) token is replaced by the fresh
uuid and the record is stored with `established: True`. Only a raised
exception reaches the branch that stores `established: False`. -/
def sessionFromHandshake (freshToken : String) (hs : HandshakeResult) :
    Session :=
  match hs with
  | .response status text =>
      let tok : Option String :=
        if status = 200 then
          match extractSessionId text with
          | some t => if t = "" then none else some t
          | none => none
        else none
      { session_id := tok.getD freshToken, established := true }
  | .exn _ => { session_id := freshToken, established := false }

/-- `NetworkMCPProxy.get_user_session`, sequential run. Returns the
session, the updated table, and the number of handshake requests issued
(0 on a cache hit, 1 on a miss). `freshToken` stands for the
`str(uuid.uuid4())` drawn when a synthetic token is needed. -/
def get_user_session (freshToken : String) (hs : HandshakeResult)
    (sessions : SessionTable) (user_id : Value) :
    Session × SessionTable × Nat :=
  match SessionTable.get sessions user_id with
  | some s => (s, sessions, 0)
  | none =>
      let s := sessionFromHandshake freshToken hs
      (s, SessionTable.set sessions user_id s, 1)

/-- `RemoteMCPProxy.establish_session`, entered with `self.session_id`
still `None`: a non-200 status raises, and the outer `except` (which also
catches network errors) falls back to a fresh uuid; a 200 response without
a usable marker line also falls back to a fresh uuid. The resulting
`session_id` is returned; this proxy keeps no health flag at all. -/
def establish_session (freshToken : String) (hs : HandshakeResult) :
    String :=
  match hs with
  | .response status text =>
      if status = 200 then
        match extractSessionId text with
        | some t => if t = "" then freshToken else t
        | none => freshToken
      else freshToken
  | .exn _ => freshToken

/-! ### RPC envelopes and the forwarding path
(`network_mcp_proxy.py` lines 60–106 and 214–266). -/

/-- A JSON-RPC style envelope. `id` is optional because the Python code
builds responses with `"id": None` on some paths. Success results and
request parameters are carried as `Value`s / argument maps; the static
`initialize` and `tools/list` result blobs are represented by opaque
marker values since no claim inspects their content. -/
inductive Envelope where
  | request (id : Option String) (method : String) (toolName : Option String)
      (arguments : Args)
  | success (id : Option String) (result : Value)
  | error (id : Option String) (code : Int) (message : String)
  deriving DecidableEq, Repr

def Envelope.envId : Envelope → Option String
  | .request i _ _ _ => i
  | .success i _ => i
  | .error i _ _ => i

def Envelope.isError : Envelope → Bool
  | .error _ _ _ => true
  | _ => false

def Envelope.errorCode : Envelope → Option Int
  | .error _ c _ => some c
  | _ => none

/-- Outcome of the `POST <base_url>/messages/?session_id=...` call: a 200
response whose JSON body is the upstream envelope, a non-200 response, or
a raised exception. -/
inductive PostResult where
  | ok (body : Envelope)
  | httpError (status : Nat) (text : String)
  | exn (msg : String)
  deriving DecidableEq, Repr

/-- The effect environment of one `tools/call` dispatch: the uuids drawn
(`freshId` for the outbound message id, `exnId` for the id synthesized in
the `except` branch, `sessionToken` for a synthetic session token) and the
outcomes of the two network calls. -/
structure CallEnv where
  freshId : String
  exnId : String
  sessionToken : String
  handshake : HandshakeResult
  post : PostResult
  deriving Repr

/-- `NetworkMCPProxy.call_remote_tool`: obtain the session, build the
outbound message with a fresh uuid id, POST it; relay the upstream body
verbatim on 200, otherwise synthesize an error envelope with code -32000
whose id is the outbound message's id (HTTP error) or a fresh uuid
(exception). `get_user_session` never raises, so a session-negotiation
failure cannot reach the `except` branch here. -/
def call_remote_tool (env : CallEnv) (sessions : SessionTable)
    (tool_name : Option String) (arguments : Args) (user_id : Value) :
    Envelope × SessionTable :=
  let r := get_user_session env.sessionToken env.handshake sessions user_id
  let sessions₁ := r.2.1
  let mcp_message : Envelope :=
    .request (some env.freshId) "tools/call" tool_name arguments
  match env.post with
  | .ok body => (body, sessions₁)
  | .httpError status text =>
      (.error mcp_message.envId (-32000)
        ("HTTP error " ++ toString status ++ ": " ++ text), sessions₁)
  | .exn msg =>
      (.error (some env.exnId) (-32000)
        ("Request failed: " ++ msg), sessions₁)

/-- A decoded `tools/call` request as seen by the network adapter:
`data.get("id")`, `params.get("name")`, `params.get("arguments", {})`,
plus the transport headers. -/
structure NetRequest where
  reqId : Option String
  toolName : Option String
  arguments : Args
  headers : List (String × String)
  deriving Repr

/-- The network adapter's `handle_call_tool`: resolve the user id
(arguments first, header as fallback, sentinel `admin_default` last),
inject it into the arguments, and forward. -/
def handle_call_tool_net (env : CallEnv) (sessions : SessionTable)
    (req : NetRequest) : Envelope × SessionTable :=
  let user_id := resolvedUserId req.arguments req.headers
  call_remote_tool env sessions req.toolName
    (forwardedArgs req.arguments req.headers) user_id

/-- The JSON body of an inbound request, as read by
`handle_mcp_request` after a successful `request.json()`. -/
structure RequestBody where
  reqId : Option String
  method : Option String
  toolName : Option String
  arguments : Args
  deriving Repr

/-- Rendering of `data.get("method")` inside the Method-not-found
message (`None` when the key is absent). -/
def methodText : Option String → String
  | some s => s
  | none => "None"

/-- `handle_init_request`: echoes the request id around the static
capability metadata (content elided as an opaque marker). -/
def handle_init_request (reqId : Option String) : Envelope :=
  .success reqId (.str "initialize-result")

/-- `handle_list_tools`: echoes the request id around the static tool
catalog (content elided as an opaque marker). -/
def handle_list_tools (reqId : Option String) : Envelope :=
  .success reqId (.str "tools-list-result")

/-- `handle_mcp_request`: decode the body, dispatch on `method`. A decode
failure is caught and answered with an error envelope, code -32000 and id
`None`; an unknown method is answered with code -32601. -/
def handle_mcp_request (env : CallEnv) (sessions : SessionTable)
    (headers : List (String × String))
    (decoded : Except String RequestBody) : Envelope × SessionTable :=
  match decoded with
  | .error msg => (.error none (-32000) msg, sessions)
  | .ok body =>
      match body.method with
      | some "initialize" => (handle_init_request body.reqId, sessions)
      | some "tools/list" => (handle_list_tools body.reqId, sessions)
      | some "tools/call" =>
          handle_call_tool_net env sessions
            ⟨body.reqId, body.toolName, body.arguments, headers⟩
      | m =>
          (.error body.reqId (-32601)
            ("Method not found: " ++ methodText m), sessions)

/-! ### Identity resolution (`main_fixed.py` lines 26–36 and 141–173). -/

/-- The identity pattern `^[a-zA-Z0-9_-]{1,64}$` of `re.match` in
`get_user_id_from_headers` and `set_user_id_context`. -/
def isValidUserId (s : String) : Bool :=
  1 ≤ s.length && s.length ≤ 64 &&
    s.toList.all (fun c => c.isAlphanum || c = '_' || c = '-')

/-- Outcome of `get_user_id_from_headers`: the validated value of the
first `x-user-id` header, a raised `ValueError` carrying the malformed
candidate, or `None` when no such header exists. -/
inductive HeaderResult where
  | found (uid : String)
  | invalid (uid : String)
  | absent
  deriving DecidableEq, Repr

/-- `get_user_id_from_headers`: scan the raw headers for the first name
equal to `x-user-id` case-insensitively, strip the value, and either
return it (pattern match) or raise `ValueError` (pattern mismatch). -/
def get_user_id_from_headers (headers : List (String × String)) :
    HeaderResult :=
  match List.find? (fun p => lowerStr p.fst = "x-user-id") headers with
  | some p =>
      let uid := pyStrip p.snd
      if isValidUserId uid then .found uid else .invalid uid
  | none => .absent

/-- First-match lookup in a string-valued parameter map
(`request.query_params.get`, `request.path_params.get`). -/
def strLookup (ps : List (String × String)) (k : String) : Option String :=
  (List.find? (fun p => p.fst = k) ps).map Prod.snd

/-- Python truthiness of an optional string (`if not user_id:`). -/
def optTruthy : Option String → Bool
  | some s => s ≠ ""
  | none => false

/-- The sources `handle_sse` consults: headers, query parameters, path
parameters. -/
structure SseRequest where
  headers : List (String × String)
  queryParams : List (String × String)
  pathParams : List (String × String)
  deriving Repr

/-- What the resolution block of `handle_sse` does to the
`current_user_id` context variable: `resolved uid` when
`current_user_id.set(uid)` runs, `sentinel` when it does not (the context
variable keeps its default `admin_default`). A `ValueError` from the
header step is caught by the surrounding `except`, which skips the query
and path steps entirely. -/
inductive Resolution where
  | resolved (uid : String)
  | sentinel
  deriving DecidableEq, Repr

/-- The identity-resolution block of `handle_sse`. -/
def resolveIdentity (r : SseRequest) : Resolution :=
  match get_user_id_from_headers r.headers with
  | .invalid _ => .sentinel
  | hr =>
      let u₀ : Option String :=
        match hr with
        | .found uid => some uid
        | _ => none
      let u₁ := if optTruthy u₀ then u₀ else strLookup r.queryParams "user_id"
      let u₂ := if optTruthy u₁ then u₁ else strLookup r.pathParams "user_id"
      if optTruthy u₂ then .resolved (u₂.getD "") else .sentinel

/-! ### Stdio tool host (`main_stdio.py` lines 38–43 and 137–229). -/

/-- `set_user_id_context`: store the candidate in the context variable
only when it is truthy and matches the identity pattern; otherwise print
a warning and leave the context variable untouched. -/
def set_user_id_context (ctx : String) (user_id : String) : String :=
  if user_id ≠ "" && isValidUserId user_id then user_id else ctx

/-- Observable outcome of the stdio `handle_call_tool` dispatch:
a call reaching the memory store under a given identity, a synchronous
argument-validation error text, the unknown-tool text, or an exception
escaping the handler before its `try` block. -/
inductive StdioAction where
  | storeCall (tool : String) (uid : String)
  | argError (msg : String)
  | unknownTool (name : String)
  | raised (msg : String)
  deriving DecidableEq, Repr

/-- The context-variable update at the top of the stdio
`handle_call_tool` (lines 146–148): a truthy `user_id` argument is passed
to `set_user_id_context`; a non-string truthy value would make `re.match`
raise a `TypeError` outside the `try` block (`none`). -/
def stdioCtxUpdate (ctx : String) (args : Args) : Option String :=
  match Args.get args "user_id" with
  | some v =>
      if v.truthy then
        match v with
        | .str s => some (set_user_id_context ctx s)
        | _ => none
      else some ctx
  | none => some ctx

/-- The tool dispatch of the stdio `handle_call_tool`, given the
`current_user` read from the context variable after the update. The
memory-store interaction itself is out of scope; what is recorded is
which identity the store call carries. -/
def dispatchTool (current_user : String) (name : String) (args : Args) :
    StdioAction :=
  if name = "add_coding_preference" then
    let text := (Args.get args "text").getD (.str "")
    if text.truthy then .storeCall name current_user
    else .argError "Error: text parameter is required"
  else if name = "get_all_coding_preferences" then
    .storeCall name current_user
  else if name = "search_coding_preferences" then
    let query := (Args.get args "query").getD (.str "")
    if query.truthy then .storeCall name current_user
    else .argError "Error: query parameter is required"
  else .unknownTool name

/-- The stdio `handle_call_tool`: update the context variable from the
`user_id` argument, then dispatch under the identity now in the context
variable. Returns the action and the context variable's new value. -/
def handle_call_tool_stdio (ctx : String) (name : String) (args : Args) :
    StdioAction × String :=
  match stdioCtxUpdate ctx args with
  | none => (.raised "TypeError", ctx)
  | some ctx₁ => (dispatchTool ctx₁ name args, ctx₁)

/-! ### Interleaved executions of `get_user_session`.

`get_user_session` is an `async` method whose only suspension point is
the `await self.client.get(...)` handshake. Everything from the
`user_id not in self.sessions` test up to issuing that request runs
atomically, as does everything from the response arriving to the
`return`. The scheduler below runs N tasks, all calling
`get_user_session` for the same `user_id`, as exactly those two atomic
segments; `freshOf i` is the uuid task `i` would draw for a synthetic
token. -/

inductive TaskPhase where
  | ready
  | awaitingHandshake
  | finished (s : Session)
  deriving DecidableEq, Repr

structure ConcState where
  table : SessionTable
  handshakes : Nat
  tasks : List TaskPhase
  deriving Repr

/-- One atomic segment of task `i`. From `ready`: the membership test,
finishing immediately on a hit, otherwise issuing the handshake and
suspending. From `awaitingHandshake`: the response arrives, the session
is computed and stored, and the task finishes. -/
def stepTask (hs : HandshakeResult) (freshOf : Nat → String) (uid : Value)
    (cs : ConcState) (i : Nat) : ConcState :=
  match cs.tasks.get? i with
  | none => cs
  | some .ready =>
      match SessionTable.get cs.table uid with
      | some s => { cs with tasks := cs.tasks.set i (.finished s) }
      | none =>
          { cs with handshakes := cs.handshakes + 1,
                    tasks := cs.tasks.set i .awaitingHandshake }
  | some .awaitingHandshake =>
      let s := sessionFromHandshake (freshOf i) hs
      { cs with table := SessionTable.set cs.table uid s,
                tasks := cs.tasks.set i (.finished s) }
  | some (.finished _) => cs

/-- Run a schedule (a list of task indices, each naming the task that
executes its next atomic segment). -/
def runSchedule (hs : HandshakeResult) (freshOf : Nat → String)
    (uid : Value) : ConcState → List Nat → ConcState
  | cs, [] => cs
  | cs, i :: rest => runSchedule hs freshOf uid (stepTask hs freshOf uid cs i) rest

/-- Initial state: an empty session table and `n` tasks about to call
`get_user_session` for the same identity. -/
def initConc (n : Nat) : ConcState :=
  { table := [], handshakes := 0, tasks := List.replicate n .ready }

/-! ## Claims -/

@[simp] theorem SessionTable.get_nil_table (uid : Value) :
    SessionTable.get [] uid = none := rfl

theorem SessionTable.get_cons_table (p : Value × Session) (rest : SessionTable)
    (uid : Value) :
    SessionTable.get (p :: rest) uid =
      if p.fst = uid then some p.snd else SessionTable.get rest uid := by
  by_cases h : p.fst = uid <;> simp [SessionTable.get, List.find?, h]

theorem SessionTable.set_cons_table (u₁ : Value) (s₁ : Session)
    (rest : SessionTable) (uid : Value) (s : Session) :
    SessionTable.set ((u₁, s₁) :: rest) uid s =
      if u₁ = uid then (u₁, s) :: rest
      else (u₁, s₁) :: SessionTable.set rest uid s :=
  rfl

/-- Looking up the identity just stored returns the stored session. -/
theorem SessionTable.get_set_self_table (t : SessionTable) (uid : Value)
    (s : Session) :
    SessionTable.get (SessionTable.set t uid s) uid = some s := by
  induction t with
  | nil => simp [SessionTable.set, SessionTable.get_cons_table]
  | cons p rest ih =>
      obtain ⟨u₁, s₁⟩ := p
      rw [SessionTable.set_cons_table]
      by_cases h : u₁ = uid
      · rw [if_pos h, SessionTable.get_cons_table]
        simp [h]
      · rw [if_neg h, SessionTable.get_cons_table]
        simpa [h] using ih

/-- A falsy optional string is either absent or empty. -/
theorem optTruthy_eq_false {o : Option String}
    (h : optTruthy o = false) : o = none ∨ o = some "" := by
  cases o with
  | none => exact Or.inl rfl
  | some s =>
      refine Or.inr ?_
      have hs : s = "" := by simpa [optTruthy] using h
      rw [hs]

/-- A found header identity always matches the identity pattern. -/
theorem found_header_valid (headers : List (String × String))
    (uid : String)
    (h : get_user_id_from_headers headers = .found uid) :
    isValidUserId uid = true := by
  unfold get_user_id_from_headers at h
  cases hf : List.find? (fun p => lowerStr p.fst = "x-user-id") headers with
  | none =>
      rw [hf] at h
      exact HeaderResult.noConfusion h
  | some p =>
      rw [hf] at h
      dsimp only at h
      by_cases hv : isValidUserId (pyStrip p.snd) = true
      · rw [if_pos hv] at h
        injection h with h₁
        rw [← h₁]
        exact hv
      · rw [if_neg hv] at h
        exact HeaderResult.noConfusion h

/-- C1, counterexample: the spec says the identity taken from the
`X-User-ID` header overrides any caller-supplied `user_id` argument, but
`handle_call_tool` consults the arguments first and uses the header only
as a fallback. A forged argument `user_id = "bob"` submitted with header
`X-User-ID: alice` is forwarded as `"bob"`, not overwritten with
`"alice"`. -/
theorem c1_counterexample :
    Args.get (forwardedArgs [("user_id", Value.str "bob")]
        [("X-User-ID", "alice")]) "user_id" = some (Value.str "bob") ∧
    some (Value.str "bob") ≠ some (Value.str "alice") := by
  exact ⟨rfl, by decide⟩

/-- C1, amended: before forwarding, the network adapter injects a
resolved identity under the key `user_id`, where the resolved identity is
the caller-supplied `user_id` argument whenever that argument is present
and truthy, and only otherwise the `X-User-ID` header value, defaulting
to the sentinel `admin_default`; the header never overrides a truthy
caller-supplied value. -/
theorem c1_amended (arguments : Args) (headers : List (String × String)) :
    Args.get (forwardedArgs arguments headers) "user_id" =
      some (resolvedUserId arguments headers) ∧
    (∀ v, Args.get arguments "user_id" = some v → v.truthy = true →
      resolvedUserId arguments headers = v) ∧
    ((∀ v, Args.get arguments "user_id" = some v → v.truthy = false) →
      resolvedUserId arguments headers =
        .str ((headerGet headers "X-User-ID").getD "admin_default")) := by
  refine ⟨Args.get_set_self arguments "user_id" _, ?_, ?_⟩
  · intro v hv htruthy
    unfold resolvedUserId
    rw [hv]
    simp [htruthy]
  · intro hfalsy
    unfold resolvedUserId
    cases hv : Args.get arguments "user_id" with
    | none => simp
    | some v => simp [hfalsy v hv]

/-- C1, witness for the amended theorem at concrete inputs: a truthy
caller-supplied `user_id` wins, and with no caller-supplied `user_id` the
header value is used. -/
theorem c1_amended_witness :
    resolvedUserId [("user_id", Value.str "bob")] [("X-User-ID", "alice")] =
      Value.str "bob" ∧
    resolvedUserId [] [("X-User-ID", "alice")] = Value.str "alice" := by
  constructor
  · exact (c1_amended [("user_id", Value.str "bob")]
      [("X-User-ID", "alice")]).2.1 (Value.str "bob") rfl rfl
  · exact ((c1_amended [] [("X-User-ID", "alice")]).2.2
      (fun v hv => Option.noConfusion hv)).trans (by decide)

/-- C10: the network adapter's `handle_call_tool` forwards every
caller-supplied argument other than `user_id` unchanged: the lookup of
any key other than `user_id` is identical before and after the
injection, and the key list is at most extended by `user_id` itself. -/
theorem c10_argument_frame (arguments : Args)
    (headers : List (String × String)) (k : String) (h : k ≠ "user_id") :
    Args.get (forwardedArgs arguments headers) k = Args.get arguments k ∧
    ((forwardedArgs arguments headers).map Prod.fst =
        arguments.map Prod.fst ∨
     (forwardedArgs arguments headers).map Prod.fst =
        arguments.map Prod.fst ++ ["user_id"]) :=
  ⟨Args.get_set_ne arguments "user_id" k _ h,
   Args.keys_set arguments "user_id" _⟩

/-- C10, witness: the `text` argument of a call that also forges
`user_id` is forwarded with its exact caller-supplied value. -/
theorem c10_argument_frame_witness :
    Args.get (forwardedArgs
        [("text", Value.str "snippet"), ("user_id", Value.str "bob")]
        [("X-User-ID", "alice")]) "text" = some (Value.str "snippet") := by
  have h := (c10_argument_frame
      [("text", Value.str "snippet"), ("user_id", Value.str "bob")]
      [("X-User-ID", "alice")] "text" (by decide)).1
  rw [h]
  rfl

/-- C2, counterexample: the spec says every response envelope echoes the
inbound request's id, but on the forwarding paths `call_remote_tool`
builds the outbound message with a fresh uuid and uses that id in the
error envelope. With inbound id `"1"`, fresh outbound id `"u0"` and an
upstream HTTP 500, the response envelope carries id `"u0"`, not `"1"`. -/
theorem c2_counterexample :
    (handle_call_tool_net
        ⟨"u0", "u1", "tok0", .exn "down", .httpError 500 "boom"⟩ []
        ⟨some "1", some "add_coding_preference", [], []⟩).1.envId =
      some "u0" ∧
    some "u0" ≠ (some "1" : Option String) := by
  exact ⟨rfl, by decide⟩

/-- C2, amended: the network adapter produces exactly one response
envelope per inbound `tools/call` (the handler is a total function), but
that envelope's id is not the inbound id: on upstream success the
upstream body is relayed verbatim (its id is whatever the upstream sent,
echoing the fresh outbound message id); on an upstream HTTP error the
synthesized error envelope carries the fresh outbound message id; on a
network exception it carries another fresh uuid. In the latter two cases
the error code is -32000. The inbound id is echoed only by the outer
exception handler and the non-`tools/call` paths of
`handle_mcp_request`. -/
theorem c2_amended (env : CallEnv) (sessions : SessionTable)
    (req : NetRequest) :
    (∀ body, env.post = .ok body →
       (handle_call_tool_net env sessions req).1 = body) ∧
    (∀ status text, env.post = .httpError status text →
       (handle_call_tool_net env sessions req).1.envId = some env.freshId ∧
       (handle_call_tool_net env sessions req).1.errorCode =
         some (-32000)) ∧
    (∀ msg, env.post = .exn msg →
       (handle_call_tool_net env sessions req).1.envId = some env.exnId ∧
       (handle_call_tool_net env sessions req).1.errorCode =
         some (-32000)) := by
  unfold handle_call_tool_net call_remote_tool
  refine ⟨?_, ?_, ?_⟩
  · intro body hpost
    rw [hpost]
  · intro status text hpost
    rw [hpost]
    exact ⟨rfl, rfl⟩
  · intro msg hpost
    rw [hpost]
    exact ⟨rfl, rfl⟩

/-- C2, witness for the amended theorem: concrete runs of the three
upstream outcomes. -/
theorem c2_amended_witness :
    (handle_call_tool_net
        ⟨"u0", "u1", "tok0", .exn "down",
          .ok (.success (some "u0") (.str "ok"))⟩ []
        ⟨some "1", some "get_all_coding_preferences", [], []⟩).1 =
      .success (some "u0") (.str "ok") ∧
    (handle_call_tool_net
        ⟨"u0", "u1", "tok0", .exn "down", .exn "timeout"⟩ []
        ⟨some "1", some "get_all_coding_preferences", [], []⟩).1.envId =
      some "u1" := by
  constructor
  · exact (c2_amended
      ⟨"u0", "u1", "tok0", .exn "down",
        .ok (.success (some "u0") (.str "ok"))⟩ []
      ⟨some "1", some "get_all_coding_preferences", [], []⟩).1
      (.success (some "u0") (.str "ok")) rfl
  · exact ((c2_amended
      ⟨"u0", "u1", "tok0", .exn "down", .exn "timeout"⟩ []
      ⟨some "1", some "get_all_coding_preferences", [], []⟩).2.2
      "timeout" rfl).1

/-- C3, counterexample: the spec says every failed token extraction
stores a degraded session (`healthy = false`), but when the handshake
returns a non-success status without raising, `get_user_session` stores
the synthetic-token session with `established: True`; only a raised
exception reaches the `established: False` branch. -/
theorem c3_counterexample :
    (get_user_session "tok0" (.response 500 "Internal Server Error") []
        (Value.str "alice")).1 = ⟨"tok0", true⟩ ∧
    ¬ ((get_user_session "tok0" (.response 500 "Internal Server Error") []
        (Value.str "alice")).1.established = false) := by
  exact ⟨rfl, by decide⟩

/-- C3, amended: whenever session negotiation for an identity does not
extract a token, the stored session carries the freshly synthesized
random token; but it is marked unhealthy only when the handshake raised a
network error — on a non-success status, and on a success whose stream
carries no usable token, the session is stored with the synthetic token
and `established: True`. In every case the session is stored in the
table. -/
theorem c3_amended (freshToken : String) (hs : HandshakeResult)
    (st : SessionTable) (uid : Value)
    (hmiss : SessionTable.get st uid = none) :
    (∀ status text, hs = .response status text → status ≠ 200 →
       (get_user_session freshToken hs st uid).1 = ⟨freshToken, true⟩) ∧
    (∀ text, hs = .response 200 text →
       (extractSessionId text = none ∨ extractSessionId text = some "") →
       (get_user_session freshToken hs st uid).1 = ⟨freshToken, true⟩) ∧
    (∀ msg, hs = .exn msg →
       (get_user_session freshToken hs st uid).1 = ⟨freshToken, false⟩) ∧
    SessionTable.get (get_user_session freshToken hs st uid).2.1 uid =
      some (get_user_session freshToken hs st uid).1 := by
  unfold get_user_session
  rw [hmiss]
  refine ⟨?_, ?_, ?_, ?_⟩
  · intro status text hhs hstat
    subst hhs
    simp [sessionFromHandshake, hstat]
  · intro text hhs hnone
    subst hhs
    rcases hnone with h | h <;> simp [sessionFromHandshake, h]
  · intro msg hhs
    subst hhs
    simp [sessionFromHandshake]
  · exact SessionTable.get_set_self_table st uid _

/-- C3, witness for the amended theorem: an HTTP 500 handshake stores
the synthetic token with `established: True`, and a 200 response without
a marker line does the same. -/
theorem c3_amended_witness :
    (get_user_session "tok0" (.response 500 "oops") []
        (Value.str "alice")).1 = ⟨"tok0", true⟩ ∧
    (get_user_session "tok1" (.response 200 "event: endpoint") []
        (Value.str "bob")).1 = ⟨"tok1", true⟩ := by
  constructor
  · exact (c3_amended "tok0" (.response 500 "oops") [] (Value.str "alice")
      rfl).1 500 "oops" rfl (by decide)
  · exact (c3_amended "tok1" (.response 200 "event: endpoint") []
      (Value.str "bob") rfl).2.1 "event: endpoint" rfl (Or.inl (by decide))

/-- C8: once a session has been stored for an identity — healthy or
degraded — every later `get_user_session` call for that identity returns
exactly the stored record with the table unchanged, issues zero handshake
requests, and its result does not depend on the handshake environment or
the uuid supply at all. -/
theorem c8_stored_session_reused (freshToken : String)
    (hs : HandshakeResult) (st : SessionTable) (uid : Value) (s : Session)
    (h : SessionTable.get st uid = some s) :
    get_user_session freshToken hs st uid = (s, st, 0) := by
  unfold get_user_session
  rw [h]

/-- C8, witness: a degraded stored session is returned unchanged even
though the handshake environment would now fail. -/
theorem c8_stored_session_reused_witness :
    get_user_session "tok9" (.exn "down")
        [(Value.str "alice", ⟨"tok0", false⟩)] (Value.str "alice") =
      (⟨"tok0", false⟩, [(Value.str "alice", ⟨"tok0", false⟩)], 0) :=
  c8_stored_session_reused "tok9" (.exn "down")
    [(Value.str "alice", ⟨"tok0", false⟩)] (Value.str "alice")
    ⟨"tok0", false⟩ (by decide)

/-- C4, counterexample: `get_user_session` has no per-identity lock, so
two concurrent callers for the same identity that both pass the
membership test before either stores a session both issue a handshake:
the schedule that interleaves the two tasks at the `await` point issues
2 handshakes for one identity, not at most 1. -/
theorem c4_counterexample :
    (runSchedule (.exn "connection refused") (fun _ => "synthetic")
        (Value.str "alice") (initConc 2) [0, 1, 0, 1]).handshakes = 2 ∧
    ¬ ((2 : Nat) ≤ 1) := by
  exact ⟨by decide, by decide⟩

/-- C4, amended: there is no single-flight mechanism. When concurrent
calls for the same identity run without interleaving (each completing
before the next membership test), at most one handshake is issued, the
later callers reusing the stored session; but an interleaving in which
both tasks pass the membership test before either stores its session
issues one handshake per task. This holds for every handshake outcome. -/
theorem c4_amended (hs : HandshakeResult) :
    (runSchedule hs (fun _ => "synthetic") (Value.str "alice")
        (initConc 2) [0, 0, 1]).handshakes = 1 ∧
    (runSchedule hs (fun _ => "synthetic") (Value.str "alice")
        (initConc 2) [0, 1, 0, 1]).handshakes = 2 := by
  cases hs <;> exact ⟨rfl, rfl⟩

/-- C4, witness for the amended theorem at a concrete handshake
outcome. -/
theorem c4_amended_witness :
    (runSchedule (.exn "down") (fun _ => "synthetic") (Value.str "alice")
        (initConc 2) [0, 0, 1]).handshakes = 1 :=
  (c4_amended (.exn "down")).1

/-- C5, counterexample: a malformed header candidate is not treated as
absent — `get_user_id_from_headers` raises `ValueError` on it, and the
`except` around the whole resolution block of `handle_sse` catches that
exception without ever consulting the query or path sources. With header
`x-user-id: bad!id` and query `user_id=alice`, resolution yields the
sentinel, not the well-formed query value `alice`. -/
theorem c5_counterexample :
    resolveIdentity ⟨[("x-user-id", "bad!id")], [("user_id", "alice")],
        []⟩ = .sentinel ∧
    Resolution.sentinel ≠ .resolved "alice" ∧
    get_user_id_from_headers [("x-user-id", "bad!id")] =
      .invalid "bad!id" := by
  exact ⟨by decide, by decide, by decide⟩

/-- C5, amended: resolution never raises past `handle_sse` (the model is
a total function into resolved-or-sentinel), and a pattern-valid header
candidate is used; but a malformed header candidate is not treated as
absent: the `ValueError` it raises aborts resolution to the sentinel
without falling through to the query or path sources, whatever those
sources contain. -/
theorem c5_amended (r : SseRequest) :
    (∀ uid, get_user_id_from_headers r.headers = .invalid uid →
       resolveIdentity r = .sentinel) ∧
    (∀ uid, get_user_id_from_headers r.headers = .found uid →
       resolveIdentity r = .resolved uid) := by
  constructor
  · intro uid h
    unfold resolveIdentity
    rw [h]
  · intro uid h
    have hval := found_header_valid r.headers uid h
    have hne : uid ≠ "" := by
      intro he
      subst he
      simp [isValidUserId] at hval
    unfold resolveIdentity
    rw [h]
    simp [optTruthy, hne]

/-- C5, witness for the amended theorem: a malformed header yields the
sentinel although the query source holds a well-formed value, and a
valid header is used. -/
theorem c5_amended_witness :
    resolveIdentity ⟨[("x-user-id", "no spaces allowed")],
        [("user_id", "alice")], []⟩ = .sentinel ∧
    resolveIdentity ⟨[("X-User-ID", "carol")], [("user_id", "alice")],
        []⟩ = .resolved "carol" := by
  constructor
  · exact (c5_amended ⟨[("x-user-id", "no spaces allowed")],
      [("user_id", "alice")], []⟩).1 "no spaces allowed" (by decide)
  · exact (c5_amended ⟨[("X-User-ID", "carol")], [("user_id", "alice")],
      []⟩).2 "carol" (by decide)

/-- C6, counterexample: resolution does not return only pattern-matching
candidates — query (and path) values are accepted without any pattern
validation. With no header and query `user_id=bad!id`, resolution yields
`bad!id`, which does not match the 1–64 alphanumeric-plus-underscore-
hyphen pattern, instead of the sentinel the claim requires. -/
theorem c6_counterexample :
    resolveIdentity ⟨[], [("user_id", "bad!id")], []⟩ =
      .resolved "bad!id" ∧
    isValidUserId "bad!id" = false := by
  exact ⟨by decide, by decide⟩

/-- C6, amended: resolution is a deterministic function of the request
that examines the sources in the fixed order header, then query, then
path — but only the header candidate is validated against the identity
pattern; query and path candidates are accepted whenever they are
nonempty, pattern-matching or not; the sentinel results when every
source is absent or empty (and also when the header is malformed). -/
theorem c6_amended (r : SseRequest) :
    (∀ uid, get_user_id_from_headers r.headers = .found uid →
       resolveIdentity r = .resolved uid) ∧
    (get_user_id_from_headers r.headers = .absent →
      (∀ q, strLookup r.queryParams "user_id" = some q → q ≠ "" →
         resolveIdentity r = .resolved q) ∧
      (optTruthy (strLookup r.queryParams "user_id") = false →
         ∀ p, strLookup r.pathParams "user_id" = some p → p ≠ "" →
           resolveIdentity r = .resolved p) ∧
      (optTruthy (strLookup r.queryParams "user_id") = false →
         optTruthy (strLookup r.pathParams "user_id") = false →
           resolveIdentity r = .sentinel)) := by
  constructor
  · intro uid h
    have hval := found_header_valid r.headers uid h
    have hne : uid ≠ "" := by
      intro he
      subst he
      simp [isValidUserId] at hval
    unfold resolveIdentity
    rw [h]
    simp [optTruthy, hne]
  · intro habs
    refine ⟨?_, ?_, ?_⟩
    · intro q hq hqne
      unfold resolveIdentity
      rw [habs]
      simp [optTruthy, hq, hqne]
    · intro hqf p hp hpne
      unfold resolveIdentity
      rw [habs]
      rcases optTruthy_eq_false hqf with hq | hq <;>
        simp [optTruthy, hq, hp, hpne]
    · intro hqf hpf
      unfold resolveIdentity
      rw [habs]
      rcases optTruthy_eq_false hqf with hq | hq <;>
        rcases optTruthy_eq_false hpf with hp | hp <;>
          simp [optTruthy, hq, hp]

/-- C6, witness for the amended theorem: header wins over query; with no
header the query value is used; with neither, the path value; with no
source at all, the sentinel. -/
theorem c6_amended_witness :
    resolveIdentity ⟨[("X-User-ID", "carol")], [("user_id", "dave")],
        []⟩ = .resolved "carol" ∧
    resolveIdentity ⟨[], [("user_id", "dave")], []⟩ = .resolved "dave" ∧
    resolveIdentity ⟨[], [], [("user_id", "erin")]⟩ = .resolved "erin" ∧
    resolveIdentity ⟨[], [], []⟩ = .sentinel := by
  refine ⟨?_, ?_, ?_, ?_⟩
  · exact (c6_amended ⟨[("X-User-ID", "carol")], [("user_id", "dave")],
      []⟩).1 "carol" (by decide)
  · exact ((c6_amended ⟨[], [("user_id", "dave")], []⟩).2 (by decide)).1
      "dave" (by decide) (by decide)
  · exact (((c6_amended ⟨[], [], [("user_id", "erin")]⟩).2
      (by decide)).2.1 (by decide)) "erin" (by decide) (by decide)
  · exact (((c6_amended ⟨[], [], []⟩).2 (by decide)).2.2 (by decide)
      (by decide))

/-- C7: an inbound byte string that cannot be decoded as a JSON envelope
never lets the decode exception past the adapter: `handle_mcp_request`
answers it with a well-formed error envelope with code -32000 (and id
`None`), leaving the session table untouched, for every state of the
effect environment. -/
theorem c7_decode_fail_closed (env : CallEnv) (sessions : SessionTable)
    (headers : List (String × String)) (msg : String) :
    handle_mcp_request env sessions headers (.error msg) =
      (.error none (-32000) msg, sessions) ∧
    (handle_mcp_request env sessions headers (.error msg)).1.isError =
      true ∧
    (handle_mcp_request env sessions headers (.error msg)).1.errorCode =
      some (-32000) := by
  exact ⟨rfl, rfl, rfl⟩

/-- C7, witness at a concrete garbage decode. -/
theorem c7_decode_fail_closed_witness :
    handle_mcp_request ⟨"u0", "u1", "tok0", .exn "down", .exn "down"⟩ []
        [] (.error "Expecting value: line 1 column 1 (char 0)") =
      (.error none (-32000)
        "Expecting value: line 1 column 1 (char 0)", []) :=
  (c7_decode_fail_closed ⟨"u0", "u1", "tok0", .exn "down", .exn "down"⟩
    [] [] "Expecting value: line 1 column 1 (char 0)").1

/-- C9: in the stdio tool host, a `user_id` argument that fails the
identity pattern does not get the call rejected and does not touch the
context variable: `handle_call_tool` runs exactly the dispatch it would
run under the identity currently stored in the context variable (the
sentinel `admin_default` only if no earlier call stored a valid
identity), and the context variable keeps its previous value. -/
theorem c9_invalid_user_id_ignored (ctx name : String) (args : Args)
    (u : String) (h₁ : Args.get args "user_id" = some (.str u))
    (h₂ : isValidUserId u = false) :
    handle_call_tool_stdio ctx name args =
      (dispatchTool ctx name args, ctx) := by
  unfold handle_call_tool_stdio stdioCtxUpdate
  rw [h₁]
  by_cases hu : u = ""
  · subst hu
    simp [Value.truthy]
  · simp [Value.truthy, hu, set_user_id_context, h₂]

/-- C9, witness: after an earlier call stored `alice`, a call carrying
the invalid `user_id` value `bob!` still reaches the store — under
`alice` — and leaves the context variable at `alice`. -/
theorem c9_invalid_user_id_ignored_witness :
    handle_call_tool_stdio "alice" "add_coding_preference"
        [("user_id", Value.str "bob!"), ("text", Value.str "hi")] =
      (.storeCall "add_coding_preference" "alice", "alice") := by
  have h := c9_invalid_user_id_ignored "alice" "add_coding_preference"
      [("user_id", Value.str "bob!"), ("text", Value.str "hi")] "bob!"
      (by decide) (by decide)
  rw [h]
  decide

end Mem0
